import Mathlib

/-!
Shallow embedding of the resource- and pipeline-management core of the
mini-renderer repository (src/managers, src/types, src/uniform, src/utils,
src/pipeline.rs).  Rust data structures become Lean structures; fallible or
process-terminating code paths return `Except PanicKind`; `HashMap`s become
association lists with insert-or-overwrite semantics; machine integers become
`Nat` (reduced mod 2^64 where the code hashes into a u64).
-/

/-- The distinct fatal (process-terminating) conditions in the embedded code.
Each constructor corresponds to a concrete `panic!` / `.unwrap()` / `todo!` /
slice-out-of-range site in the source. -/
inductive PanicKind
  /-- Models `material.rs` `generate_bind_groups`: a shader binding name with no
  same-named entry in the material's assignment maps, or a dangling uniform
  handle (the code logs the same "Failed to bind" message for both). -/
  | missingBinding
  /-- Models `material.rs` line 191: `&name[..name.len() - 8]` — usize underflow of
  `name.len() - 8` or a byte index that is out of range / off a UTF-8 char
  boundary. -/
  | sliceError
  /-- A plain `.unwrap()` on a `None` (missing map entry, unset shader). -/
  | unwrapFail
  /-- Models `todo!()` on the `BindingType::Storage` arms of `generate_bind_groups`. -/
  | todoUnimplemented
  /-- Models `resource_handle.rs` `clone`: observed pre-increment refcount was 0. -/
  | useAfterFree
  /-- Models `shader_reflect.rs` `reflect`: address-space keyword that is neither
  `uniform` nor `storage`. -/
  | unknownBindingType
deriving DecidableEq

/-- Association-list lookup: first entry whose key matches.  Models
`HashMap::get`. -/
def lookupA {α : Type} [DecidableEq α] {β : Type} : List (α × β) → α → Option β
  | [], _ => none
  | (k, v) :: rest, key => if k = key then some v else lookupA rest key

/-- Association-list insert-or-overwrite.  Models `HashMap::insert`. -/
def setA {α : Type} [DecidableEq α] {β : Type} : List (α × β) → α → β → List (α × β)
  | [], key, v => [(key, v)]
  | (k, w) :: rest, key, v =>
      if k = key then (key, v) :: rest else (k, w) :: setA rest key v

theorem lookupA_setA_self {α : Type} [DecidableEq α] {β : Type}
    (l : List (α × β)) (k : α) (v : β) : lookupA (setA l k v) k = some v := by
  induction l with
  | nil => simp [setA, lookupA]
  | cons p rest ih =>
      by_cases h : p.1 = k
      · simp [setA, h, lookupA]
      · simp [setA, h, lookupA, ih]

theorem lookupA_setA_ne {α : Type} [DecidableEq α] {β : Type}
    (l : List (α × β)) (k k' : α) (v : β) (h : k ≠ k') :
    lookupA (setA l k v) k' = lookupA l k' := by
  induction l with
  | nil => simp [setA, lookupA, h]
  | cons p rest ih =>
      by_cases hp : p.1 = k
      · subst hp
        simp [setA, lookupA, h, ih]
      · simp [setA, hp, lookupA, ih]

/-! ## ResourceHandle refcount protocol (`src/managers/resource_handle.rs`)

The control block `ResourceHandleRaw` holds an atomic refcount.  The whole
system is single-threaded (spec §5), so the atomics linearize and the control
block is modelled as a plain state: the current refcount plus a flag recording
whether `Box::from_raw` has reclaimed the block. -/

/-- The state of one `ResourceHandleRaw` control block: the refcount and
whether the backing allocation has been freed. -/
structure RcState where
  rc : Nat
  freed : Bool
deriving DecidableEq

/-- An operation performed on handles of one control block. -/
inductive RcOp
  | clone
  | drop
deriving DecidableEq

/-- Models `ResourceHandle::clone` (resource_handle.rs lines 40-54): `fetch_add(1)`;
if the observed pre-increment count was 0, the code panics ("ResourceHandle is
already dropped"). -/
def cloneOp (s : RcState) : Except PanicKind RcState :=
  if s.rc = 0 then .error .useAfterFree
  else .ok { s with rc := s.rc + 1 }

/-- Models `ResourceHandle::drop` (resource_handle.rs lines 56-66): `fetch_sub(1)`;
if the observed pre-decrement count was 1, the control block is freed. -/
def dropOp (s : RcState) : RcState :=
  if s.rc = 1 then { rc := 0, freed := true }
  else { s with rc := s.rc - 1 }

/-- Run a sequence of clone/drop operations against one control block. -/
def runOps : List RcOp → RcState → Except PanicKind RcState
  | [], s => .ok s
  | RcOp.clone :: rest, s =>
      match cloneOp s with
      | .error e => .error e
      | .ok s1 => runOps rest s1
  | RcOp.drop :: rest, s => runOps rest (dropOp s)

/-- Number of clone operations in a sequence. -/
def nClones : List RcOp → Nat
  | [] => 0
  | RcOp.clone :: rest => nClones rest + 1
  | RcOp.drop :: rest => nClones rest

/-- Number of drop operations in a sequence. -/
def nDrops : List RcOp → Nat
  | [] => 0
  | RcOp.clone :: rest => nDrops rest
  | RcOp.drop :: rest => nDrops rest + 1

theorem nClones_cons_clone (r : List RcOp) : nClones (RcOp.clone :: r) = nClones r + 1 := rfl

theorem nClones_cons_drop (r : List RcOp) : nClones (RcOp.drop :: r) = nClones r := rfl

theorem nDrops_cons_clone (r : List RcOp) : nDrops (RcOp.clone :: r) = nDrops r := rfl

theorem nDrops_cons_drop (r : List RcOp) : nDrops (RcOp.drop :: r) = nDrops r + 1 := rfl

/-- Ownership discipline of Rust values: every operation acts on a live handle,
so the refcount is at least 1 before each step.  (One cannot call `clone` or
`drop` without holding a handle; a sequence violating this is not expressible
in the source language.) -/
def validOps : List RcOp → Nat → Bool
  | [], _ => true
  | RcOp.clone :: rest, rc => decide (1 ≤ rc) && validOps rest (rc + 1)
  | RcOp.drop :: rest, rc => decide (1 ≤ rc) && validOps rest (rc - 1)

theorem runOps_count (ops : List RcOp) :
    ∀ s : RcState, s.freed = false → 1 ≤ s.rc → validOps ops s.rc = true →
      nDrops ops < s.rc + nClones ops →
      runOps ops s = .ok ⟨s.rc + nClones ops - nDrops ops, false⟩ := by
  induction ops with
  | nil =>
      intro s hf hrc _ _
      simp [runOps, nClones, nDrops]
      cases s with
      | mk rc freed => simp_all
  | cons op rest ih =>
      intro s hf hrc hv hcount
      cases op with
      | clone =>
          have hrc0 : ¬ s.rc = 0 := by omega
          simp [validOps] at hv
          rw [nClones_cons_clone, nDrops_cons_clone] at hcount
          have hrun := ih ⟨s.rc + 1, false⟩ rfl (by show 1 ≤ s.rc + 1; omega)
            (by simpa using hv.2)
            (by show nDrops rest < s.rc + 1 + nClones rest; omega)
          simp only [runOps, cloneOp, hrc0, if_false, hf, nClones_cons_clone,
            nDrops_cons_clone]
          simp only at hrun
          rw [hrun]
          congr 2
          omega
      | drop =>
          simp [validOps] at hv
          rw [nClones_cons_drop, nDrops_cons_drop] at hcount
          by_cases h1 : s.rc = 1
          · exfalso
            cases rest with
            | nil =>
                simp [nClones, nDrops] at hcount
                omega
            | cons op2 rest2 =>
                cases op2 with
                | clone => simp [h1, validOps] at hv
                | drop => simp [h1, validOps] at hv
          · have hge2 : 2 ≤ s.rc := by omega
            have hrun := ih ⟨s.rc - 1, false⟩ rfl (by show 1 ≤ s.rc - 1; omega) hv.2
              (by show nDrops rest < s.rc - 1 + nClones rest; omega)
            simp only [runOps, dropOp, h1, if_false, hf, nClones_cons_drop,
              nDrops_cons_drop]
            simp only at hrun
            rw [hrun]
            congr 2
            omega

/-! ## UniformBuffer / ObservableData (`src/uniform`)

`ObservableData::new` starts with `dirty = false`; `set` replaces the payload
and marks dirty; `UniformBuffer::new` uploads the initial bytes via
`create_buffer_init`; `update(queue)` writes the payload to the GPU buffer
only when dirty, then clears the flag.  The payload is a `Box<dyn AsBytes>`;
it is modelled by its byte representation (`List Nat`). -/

/-- Models `UniformBuffer` (uniform_buffer.rs): `gpu` models the contents of the
`wgpu::Buffer`; `data` models the `ObservableData` payload's bytes; `dirty`
its flag. -/
structure UniformBuffer where
  gpu : List Nat
  data : List Nat
  dirty : Bool
deriving DecidableEq

/-- Models `UniformBuffer::new` (uniform_buffer.rs lines 13-27): the GPU buffer is
created holding the initial bytes, and `ObservableData::new` starts clean. -/
def UniformBuffer.new (initial : List Nat) : UniformBuffer :=
  { gpu := initial, data := initial, dirty := false }

/-- Models `UniformBuffer::set_data` → `ObservableData::set`: replace payload, mark
dirty. -/
def UniformBuffer.set_data (b : UniformBuffer) (newData : List Nat) : UniformBuffer :=
  { b with data := newData, dirty := true }

/-- Models `UniformBuffer::update` (uniform_buffer.rs lines 29-34): upload to the GPU
buffer only if dirty, then clear the flag. -/
def UniformBuffer.update (b : UniformBuffer) : UniformBuffer :=
  if b.dirty then { gpu := b.data, data := b.data, dirty := false } else b

/-! ## Shader reflection (`src/utils/shader_reflect.rs`) -/

/-- Models `BindingType` (shader_reflect.rs lines 5-11). -/
inductive BindingType
  | texture
  | textureSampler
  | uniform
  | storage
deriving DecidableEq

/-- Models `Binding` (shader_reflect.rs lines 13-19). -/
structure Binding where
  group : Nat
  binding : Nat
  name : String
  btype : BindingType
deriving DecidableEq

/-- Does `needle` occur at the start of `hay`?  (`str::starts_with` on char
lists.) -/
def hasPrefixChars : List Char → List Char → Bool
  | [], _ => true
  | _ :: _, [] => false
  | a :: as, b :: bs => a == b && hasPrefixChars as bs

/-- Does `needle` occur anywhere inside `hay`?  Models Rust's
`str::contains`. -/
def containsChars (needle : List Char) : List Char → Bool
  | [] => hasPrefixChars needle []
  | c :: rest => hasPrefixChars needle (c :: rest) || containsChars needle rest

/-- Models `tex_type.contains("sampler")` (shader_reflect.rs line 44). -/
def mentionsSampler (ty : String) : Bool :=
  containsChars "sampler".toList ty.toList

/-- One binding declaration recognized by `ShaderReflect::reflect`.  The two
regexes in shader_reflect.rs (lines 37 and 62) match exactly the two
declaration shapes of well-formed, semicolon-terminated WGSL resource
declarations (spec §6): `varRes g b name ty` renders as
`@group(g) @binding(b) var name: ty;` (matched by the first regex only, since
`var` is followed by whitespace and then the name) and `varTyped g b space
name ty` renders as `@group(g) @binding(b) var<space> name: ty;` (matched by
the second regex only, with `space` captured between the two non-word
characters `<` `>`).  A shader source is modelled as the list of its binding
declarations in source order. -/
inductive VarDecl
  | varRes (group binding : Nat) (name ty : String)
  | varTyped (group binding : Nat) (space name ty : String)
deriving DecidableEq

/-- First `captures_iter` loop of `ShaderReflect::reflect` (lines 38-59):
every opaque-resource declaration is inserted as a `TextureSampler` binding
when its declared type mentions "sampler", else as a `Texture` binding.
Typed declarations do not match this regex.  `HashMap::insert` keyed by the
variable name. -/
def reflectPass1 : List VarDecl → List (String × Binding) → List (String × Binding)
  | [], acc => acc
  | VarDecl.varRes g b name ty :: rest, acc =>
      let bt := if mentionsSampler ty then BindingType.textureSampler
                else BindingType.texture
      reflectPass1 rest (setA acc name ⟨g, b, name, bt⟩)
  | VarDecl.varTyped _ _ _ _ _ :: rest, acc => reflectPass1 rest acc

/-- Second `captures_iter` loop of `ShaderReflect::reflect` (lines 63-84):
every typed value declaration's address-space keyword is matched against
`uniform` and `storage`; any other keyword hits the
`panic!("Unknown binding type")` arm.  Opaque declarations do not match this
regex. -/
def reflectPass2 : List VarDecl → List (String × Binding) →
    Except PanicKind (List (String × Binding))
  | [], acc => .ok acc
  | VarDecl.varRes _ _ _ _ :: rest, acc => reflectPass2 rest acc
  | VarDecl.varTyped g b space name _ :: rest, acc =>
      if space = "uniform" then
        reflectPass2 rest (setA acc name ⟨g, b, name, BindingType.uniform⟩)
      else if space = "storage" then
        reflectPass2 rest (setA acc name ⟨g, b, name, BindingType.storage⟩)
      else .error .unknownBindingType

/-- Models `ShaderReflect::reflect` (shader_reflect.rs lines 36-87): run both
passes over the source's binding declarations. -/
def reflect (decls : List VarDecl) : Except PanicKind (List (String × Binding)) :=
  reflectPass2 decls (reflectPass1 decls [])

/-- A typed value declaration whose address-space keyword is neither
`uniform` nor `storage`. -/
def badTyped : VarDecl → Bool
  | VarDecl.varRes _ _ _ _ => false
  | VarDecl.varTyped _ _ space _ _ => !(space = "uniform" || space = "storage")

/-! ## Handles and resources -/

/-- Models `ResourceType` (resource_manager.rs lines 24-33).  Note: there is no
uniform-buffer variant. -/
inductive ResourceType
  | noneT
  | mesh
  | texture
  | material
  | pipeline
  | shader
  | model
deriving DecidableEq

/-- Models `ResourceHandle` (resource_handle.rs): identity (equality) is by the
backing control block, modelled by the allocation id `id`; handles created by
`ResourceHandle::new` get a fresh id.  `resource_type` is the informational
tag returned by `get_type`. -/
structure RHandle where
  id : Nat
  resource_type : ResourceType
deriving DecidableEq

/-- A decoded texture resource (`src/types/texture.rs`); its pixel data and
sampler are irrelevant to the claims, so only the identity is kept. -/
structure TextureRes where
  tid : Nat
deriving DecidableEq

/-- Models `Shader` (types/shader.rs): reflected binding table plus the bind-group
layouts generated by `generate_bindings` — one layout per group index that
occurs in the table, so `layoutGroups` is the list of those group indices
(`bind_group_layouts` keys).  The source text and compiled module are
irrelevant to the claims. -/
structure Shader where
  bindings : List (String × Binding)
  layoutGroups : List Nat
deriving DecidableEq

/-- Models `Shader::get_bind_group_layout` (types/shader.rs lines 127-129). -/
def Shader.get_bind_group_layout (s : Shader) (group : Nat) : Bool :=
  s.layoutGroups.contains group

/-- Models `Vertex attribute` of a `wgpu::VertexBufferLayout`: format, offset and
shader location (numeric codes). -/
structure VertexAttribute where
  format : Nat
  offset : Nat
  shader_location : Nat
deriving DecidableEq

/-- Models `wgpu::VertexBufferLayout` as stored in `MeshLayout`
(types/mesh.rs lines 36-40). -/
structure VertexBufferLayout where
  array_stride : Nat
  step_mode : Nat
  attributes : List VertexAttribute
deriving DecidableEq

/-- Models `Mesh` (types/mesh.rs): only the layout participates in the claims; the
submesh vertex/index payloads are elided. -/
structure Mesh where
  layout : List VertexBufferLayout
deriving DecidableEq

/-! ## Pipeline hashing and the pipeline cache (`src/pipeline.rs`,
`src/managers/pipeline_manager.rs`) -/

/-- A deterministic stand-in for Rust's `DefaultHasher` on one vertex
attribute: any function of the hashed fields works for the claims, which only
depend on equal inputs hashing equally. -/
def hashStep (h x : Nat) : Nat := (h * 1000003 + x + 1) % 2 ^ 64

/-- Hash of one `wgpu::VertexBufferLayout` (its `Hash` instance covers
stride, step mode and attributes). -/
def hashVBL (h : Nat) (v : VertexBufferLayout) : Nat :=
  let h1 := hashStep (hashStep h v.array_stride) v.step_mode
  v.attributes.foldl
    (fun acc a => hashStep (hashStep (hashStep acc a.format) a.offset) a.shader_location)
    h1

/-- Models `PipelineBuildSettings` (pipeline.rs lines 18-24): the builder state.
`bind_groups` and `shader` are identified by numeric ids. -/
structure PipelineBuildSettings where
  uuid : Nat
  vertex_descriptors : List VertexBufferLayout
  bind_groups : List Nat
  shader : Option Nat
  use_depth : Bool
deriving DecidableEq

/-- Models `PipelineBuildSettings::new` (pipeline.rs lines 119-127). -/
def PipelineBuildSettings.new : PipelineBuildSettings :=
  { uuid := 0, vertex_descriptors := [], bind_groups := [], shader := none,
    use_depth := false }

/-- Models `PipelineBuildSettings::add_vertex_descriptor`. -/
def PipelineBuildSettings.add_vertex_descriptor
    (c : PipelineBuildSettings) (v : VertexBufferLayout) : PipelineBuildSettings :=
  { c with vertex_descriptors := c.vertex_descriptors ++ [v] }

/-- Models `PipelineBuildSettings::add_bind_group`. -/
def PipelineBuildSettings.add_bind_group
    (c : PipelineBuildSettings) (g : Nat) : PipelineBuildSettings :=
  { c with bind_groups := c.bind_groups ++ [g] }

/-- Models `PipelineBuildSettings::set_shader`. -/
def PipelineBuildSettings.set_shader
    (c : PipelineBuildSettings) (s : Nat) : PipelineBuildSettings :=
  { c with shader := some s }

/-- Models `PipelineBuildSettings::use_depth`. -/
def PipelineBuildSettings.set_use_depth
    (c : PipelineBuildSettings) (d : Bool) : PipelineBuildSettings :=
  { c with use_depth := d }

/-- Models `PipelineBuildSettings::calculate_hash` (pipeline.rs lines 149-159): the
hasher is fed each vertex descriptor and nothing else — the bind groups, the
shader and the depth flag are not hashed. -/
def PipelineBuildSettings.calculate_hash
    (c : PipelineBuildSettings) : PipelineBuildSettings :=
  { c with uuid := c.vertex_descriptors.foldl hashVBL 0 }

/-- The scan `for (handle, pipeline) in self.pipelines.iter()` of
`create_or_get_pipeline` (pipeline_manager.rs lines 46-50): return the handle
of the first pipeline whose stored uuid equals the config hash. -/
def findPipeline : List (RHandle × Nat) → Nat → Option RHandle
  | [], _ => none
  | (h, u) :: rest, target =>
      if u = target then some h else findPipeline rest target

/-- Models `PipelineManager::create_or_get_pipeline` (pipeline_manager.rs lines
22-54) with the pipeline map as a `(handle, pipeline-uuid)` association list
and fresh handle ids drawn from `nextId`.  Returns the handle, the new map
and the new counter. -/
def create_or_get_pipeline (pipelines : List (RHandle × Nat)) (nextId : Nat)
    (mesh_layout : List VertexBufferLayout) (material_bind_groups : List Nat)
    (shader : Nat) : RHandle × List (RHandle × Nat) × Nat :=
  let config0 := PipelineBuildSettings.new.set_use_depth false
  let config1 := mesh_layout.foldl
    (fun c v => c.add_vertex_descriptor v) config0
  let config2 := material_bind_groups.foldl
    (fun c g => c.add_bind_group g) config1
  let config := (config2.set_shader shader).calculate_hash
  match findPipeline pipelines config.uuid with
  | some h => (h, pipelines, nextId)
  | none =>
      let h : RHandle := ⟨nextId, ResourceType.pipeline⟩
      (h, pipelines ++ [(h, config.uuid)], nextId + 1)

/-! ## Material (`src/types/material.rs`) -/

/-- The resource bound by one `wgpu::BindGroupEntry`. -/
inductive BindRes
  | texView (t : RHandle)
  | texSampler (t : RHandle)
  | buf (name : String)
deriving DecidableEq

/-- One `wgpu::BindGroupEntry`: the binding index within its group, and the
bound resource. -/
structure BindEntry where
  binding : Nat
  res : BindRes
deriving DecidableEq

/-- Models `Material` (material.rs lines 11-37); the device/queue handles are
ambient.  `bind_group_buffers` maps a uniform binding name to the bytes its
per-binding copy buffer was created with. -/
structure Material where
  textures : List (String × RHandle)
  uniforms : List (String × RHandle)
  bind_groups : List (Nat × List BindEntry)
  bind_group_buffers : List (String × List Nat)
  needs_regen : Bool
  shader_handle : Option RHandle
  shader_bindings : Option (List (String × Binding))
deriving DecidableEq

/-- Models `Material::new` (material.rs lines 40-56). -/
def Material.new : Material :=
  { textures := [], uniforms := [], bind_groups := [], bind_group_buffers := [],
    needs_regen := true, shader_handle := none, shader_bindings := none }

/-- Models `Material::add_texture` (material.rs lines 74-79): insert and mark
dirty. -/
def Material.add_texture (m : Material) (name : String) (t : RHandle) : Material :=
  { m with textures := setA m.textures name t, needs_regen := true }

/-- Models `Material::add_uniform` (material.rs lines 81-86): insert and mark
dirty. -/
def Material.add_uniform (m : Material) (name : String) (u : RHandle) : Material :=
  { m with uniforms := setA m.uniforms name u, needs_regen := true }

/-- Models `Material::set_shader` (material.rs lines 96-99). -/
def Material.set_shader (m : Material) (s : RHandle)
    (bindings : List (String × Binding)) : Material :=
  { m with shader_handle := some s, shader_bindings := some bindings }

/-- Byte length of a Rust `&str` (UTF-8), on its character list. -/
def bytesLen (s : List Char) : Nat := s.foldl (fun n c => n + c.utf8Size) 0

/-- Models `&name[..k]` on a Rust string: take the first `k` BYTES.  Succeeds with
the character prefix when `k` lands on a character boundary; the slice
operation panics when it does not (or when `k` exceeds the length). -/
def takeBytes : Nat → List Char → Except PanicKind (List Char)
  | n, [] => if n = 0 then .ok [] else .error .sliceError
  | n, c :: rest =>
      if n = 0 then .ok []
      else if c.utf8Size ≤ n then
        (takeBytes (n - c.utf8Size) rest).map (fun p => c :: p)
      else .error .sliceError

/-- Models `&name[..name.len() - 8]` (material.rs line 191): `name.len()` is the
BYTE length; when it is below 8 the `usize` subtraction underflows (debug:
arithmetic-overflow panic; release: a wrapped, far out-of-range index, so the
slice panics), and otherwise the slice panics iff the cut misses a character
boundary.  Either failure is `sliceError`, not `missingBinding`. -/
def stripSamplerName (name : String) : Except PanicKind String :=
  let cs := name.toList
  if bytesLen cs < 8 then .error .sliceError
  else (takeBytes (bytesLen cs - 8) cs).map (fun p => String.mk p)

/-- Models `entries.entry(group).or_insert_with(Vec::new); entries.push(entry)`
(material.rs lines 184-185 etc.): append an entry to its group's vector,
creating the group on first use. -/
def pushEntry (acc : List (Nat × List BindEntry)) (g : Nat) (e : BindEntry) :
    List (Nat × List BindEntry) :=
  match lookupA acc g with
  | none => acc ++ [(g, [e])]
  | some es => setA acc g (es ++ [e])

/-! ## ResourceManager (`src/managers/resource_manager.rs`) -/

/-- Models `ResourceManager`: the per-category maps (the mesh GPU-buffer maps are
elided; they key the same handles as `meshes`).  The `ShaderManager`'s map
and the `PipelineManager`'s map are inlined as `shaders` and `pipelines`
(each `Pipeline` is represented by its stored uuid).  `nextId` supplies the
fresh allocation ids of `ResourceHandle::new`. -/
structure ResourceManager where
  nextId : Nat
  meshes : List (RHandle × Mesh)
  textures : List (RHandle × TextureRes)
  materials : List (RHandle × Material)
  uniforms : List (RHandle × UniformBuffer)
  shaders : List (RHandle × Shader)
  pipelines : List (RHandle × Nat)
deriving DecidableEq

/-- First loop of `Material::generate_bind_groups` (material.rs lines
128-161): for every `Uniform` binding, look up the same-named assigned
uniform (`panic!` if absent, logged as "Failed to bind uniform"), fetch the
uniform buffer from the resource manager (same message on a dangling
handle), and insert a copy buffer created from the uniform's current payload
bytes; `Storage` hits `todo!()`; texture bindings are skipped. -/
def genPass1 (m : Material) (rm : ResourceManager) :
    List (String × Binding) → List (String × List Nat) →
    Except PanicKind (List (String × List Nat))
  | [], acc => .ok acc
  | (name, b) :: rest, acc =>
      match b.btype with
      | BindingType.uniform =>
          match lookupA m.uniforms name with
          | none => .error .missingBinding
          | some uh =>
              match lookupA rm.uniforms uh with
              | none => .error .missingBinding
              | some ub => genPass1 m rm rest (setA acc name ub.data)
      | BindingType.storage => .error .todoUnimplemented
      | _ => genPass1 m rm rest acc

/-- Second loop of `Material::generate_bind_groups` (material.rs lines
165-229): build the per-group entry vectors.  `Texture`: look up the
same-named texture (`panic!` if absent) and borrow it from the manager
(`.unwrap()` on a dangling handle); `TextureSampler`: strip the last 8 bytes
of the binding name and look THAT name up; `Uniform`: fetch the copy buffer
created by the first loop (`.unwrap()`); `Storage`: `todo!()`. -/
def genPass2 (m : Material) (rm : ResourceManager) (bufs : List (String × List Nat)) :
    List (String × Binding) → List (Nat × List BindEntry) →
    Except PanicKind (List (Nat × List BindEntry))
  | [], acc => .ok acc
  | (name, b) :: rest, acc =>
      match b.btype with
      | BindingType.texture =>
          match lookupA m.textures name with
          | none => .error .missingBinding
          | some th =>
              match lookupA rm.textures th with
              | none => .error .unwrapFail
              | some _ =>
                  genPass2 m rm bufs rest
                    (pushEntry acc b.group ⟨b.binding, BindRes.texView th⟩)
      | BindingType.textureSampler =>
          match stripSamplerName name with
          | .error e => .error e
          | .ok base =>
              match lookupA m.textures base with
              | none => .error .missingBinding
              | some th =>
                  match lookupA rm.textures th with
                  | none => .error .unwrapFail
                  | some _ =>
                      genPass2 m rm bufs rest
                        (pushEntry acc b.group ⟨b.binding, BindRes.texSampler th⟩)
      | BindingType.uniform =>
          match lookupA bufs name with
          | none => .error .unwrapFail
          | some _ =>
              genPass2 m rm bufs rest
                (pushEntry acc b.group ⟨b.binding, BindRes.buf name⟩)
      | BindingType.storage => .error .todoUnimplemented

/-- Models `Material::generate_bind_groups` (material.rs lines 112-247): no-op when
clean; otherwise unwrap the shader binding table, run both loops, unwrap the
shader (panicking on a dangling handle), build one bind group per group index
that has a layout in the shader, and clear the dirty flag. -/
def Material.generate_bind_groups (m : Material) (rm : ResourceManager) :
    Except PanicKind Material :=
  if m.needs_regen = false then .ok m
  else
    match m.shader_bindings with
    | none => .error .unwrapFail
    | some binds =>
        match genPass1 m rm binds m.bind_group_buffers with
        | .error e => .error e
        | .ok bufs =>
            match genPass2 m rm bufs binds [] with
            | .error e => .error e
            | .ok entries =>
                match m.shader_handle with
                | none => .error .unwrapFail
                | some sh =>
                    match lookupA rm.shaders sh with
                    | none => .error .unwrapFail
                    | some shader =>
                        let newBGs := entries.foldl (fun acc ge =>
                          if shader.get_bind_group_layout ge.1 then
                            setA acc ge.1 ge.2
                          else acc) m.bind_groups
                        .ok { m with bind_group_buffers := bufs,
                                     bind_groups := newBGs, needs_regen := false }

/-- Insertion into a sorted list of group ids. -/
def insertSortedNat (n : Nat) : List Nat → List Nat
  | [] => [n]
  | x :: rest => if n ≤ x then n :: x :: rest else x :: insertSortedNat n rest

/-- Sort group ids ascending (the `sort_by` of
`Shader::get_bind_group_layouts`, types/shader.rs lines 131-144). -/
def sortNat : List Nat → List Nat
  | [] => []
  | x :: rest => insertSortedNat x (sortNat rest)

/-- Models `Shader::get_bind_group_layouts`: the layouts ordered by group id. -/
def Shader.get_bind_group_layouts (s : Shader) : List Nat :=
  sortNat s.layoutGroups

/-- Models `ResourceManager::create_uniform_buffer` (resource_manager.rs lines
249-257): the fresh handle is allocated with `ResourceType::Material` (there
is no uniform variant), the buffer is created from the data and stored in
the `uniforms` map. -/
def ResourceManager.create_uniform_buffer (rm : ResourceManager)
    (data : List Nat) : RHandle × ResourceManager :=
  let h : RHandle := ⟨rm.nextId, ResourceType.material⟩
  (h, { rm with nextId := rm.nextId + 1,
                uniforms := setA rm.uniforms h (UniformBuffer.new data) })

/-- Models `ResourceManager::update_uniform_buffer` (resource_manager.rs lines
262-268): `.unwrap()` the buffer, `set_data`, then immediately `update` it
with the queue — the upload is performed inside this call. -/
def ResourceManager.update_uniform_buffer (rm : ResourceManager)
    (h : RHandle) (data : List Nat) : Except PanicKind ResourceManager :=
  match lookupA rm.uniforms h with
  | none => .error .unwrapFail
  | some b =>
      .ok { rm with uniforms := setA rm.uniforms h ((b.set_data data).update) }

/-- Models `ShaderManager::get_shader_bindings` (shader_manager.rs lines 39-41):
`Some(self.shaders.get(handle).unwrap().get_bindings())` — the `.unwrap()`
panics when the handle is not registered; otherwise the result is always
`Some`. -/
def get_shader_bindings (rm : ResourceManager) (h : RHandle) :
    Except PanicKind (Option (List (String × Binding))) :=
  match lookupA rm.shaders h with
  | none => .error .unwrapFail
  | some s => .ok (some s.bindings)

/-- Models `ResourceManager::assign_shader_to_material` (resource_manager.rs lines
179-187): `.unwrap()` the material; if the bindings are retrieved, set the
shader on the material; the `else` arm only logs "Shader bindings not found"
and leaves the material untouched. -/
def ResourceManager.assign_shader_to_material (rm : ResourceManager)
    (material_handle shader_handle : RHandle) : Except PanicKind ResourceManager :=
  match lookupA rm.materials material_handle with
  | none => .error .unwrapFail
  | some m =>
      match get_shader_bindings rm shader_handle with
      | .error e => .error e
      | .ok (some bindings) =>
          let m2 := m.set_shader shader_handle bindings
          .ok { rm with materials := setA rm.materials material_handle m2 }
      | .ok none => .ok rm

/-- Models `ResourceManager::create_pipeline` (resource_manager.rs lines 225-243):
unwrap the mesh and material, unwrap the material's shader handle
(`Material::get_shader`), fetch the shader (panicking "Shader not found" when
absent), and delegate to `create_or_get_pipeline` with the mesh's vertex
layout and the shader's ordered bind-group layouts. -/
def ResourceManager.create_pipeline (rm : ResourceManager)
    (mesh_handle material_handle : RHandle) :
    Except PanicKind (RHandle × ResourceManager) :=
  match lookupA rm.meshes mesh_handle with
  | none => .error .unwrapFail
  | some mesh =>
      match lookupA rm.materials material_handle with
      | none => .error .unwrapFail
      | some mat =>
          match mat.shader_handle with
          | none => .error .unwrapFail
          | some sh =>
              match lookupA rm.shaders sh with
              | none => .error .unwrapFail
              | some shader =>
                  let r := create_or_get_pipeline rm.pipelines rm.nextId
                    mesh.layout shader.get_bind_group_layouts sh.id
                  .ok (r.1, { rm with pipelines := r.2.1, nextId := r.2.2 })

/-! ## Theorems -/

deriving instance DecidableEq for Except

/-- C5: for every ResourceHandle control block, a valid sequence of N clones
and M < N drops (valid: every operation acts on a live handle, which is all
the ownership system of the source language can express) ends with refcount
initial + N − M and the block not freed; a drop frees the block exactly when
it observes refcount 1 (the transition to 0), and cloning with an observed
count of 0 is the "already dropped" programming-error panic. -/
theorem resource_handle_refcount_balance (ops : List RcOp) (init : Nat)
    (hval : validOps ops init = true) (hinit : 1 ≤ init)
    (hMN : nDrops ops < nClones ops) :
    runOps ops ⟨init, false⟩ = .ok ⟨init + nClones ops - nDrops ops, false⟩ ∧
    (∀ s : RcState, s.freed = false → ((dropOp s).freed = true ↔ s.rc = 1)) ∧
    (∀ s : RcState, s.rc = 0 → cloneOp s = .error PanicKind.useAfterFree) := by
  refine ⟨?_, ?_, ?_⟩
  · exact runOps_count ops ⟨init, false⟩ rfl hinit hval (by omega)
  · intro s hf
    unfold dropOp
    by_cases h1 : s.rc = 1
    · simp [h1]
    · simp [h1, hf]
  · intro s h0
    simp [cloneOp, h0]

/-- Witness for C5 at initial count 1 with the sequence
clone; clone; drop. -/
theorem resource_handle_refcount_balance_witness :
    runOps [RcOp.clone, RcOp.clone, RcOp.drop] ⟨1, false⟩ = .ok ⟨2, false⟩ :=
  (resource_handle_refcount_balance [RcOp.clone, RcOp.clone, RcOp.drop] 1
    (by decide) (by decide) (by decide)).1

/-- C10: a freshly constructed UniformBuffer is clean — `ObservableData::new`
starts with dirty = false and the initial payload was uploaded once at
construction — so `update(queue)` performs no GPU write (the buffer is
unchanged) until the first `set_data`, which sets the dirty flag. -/
theorem uniform_buffer_new_is_clean (d e : List Nat) :
    (UniformBuffer.new d).dirty = false ∧
    (UniformBuffer.new d).gpu = d ∧
    (UniformBuffer.new d).update = UniformBuffer.new d ∧
    ((UniformBuffer.new d).set_data e).dirty = true := by
  refine ⟨rfl, rfl, ?_, rfl⟩
  simp [UniformBuffer.update, UniformBuffer.new]

/-- C8: every handle returned by `create_uniform_buffer` carries the type tag
`ResourceType::Material` (the enum has no uniform-specific variant), so
`get_type` on it never reports a uniform type; the buffer is nevertheless
found, because lookup routes through the `uniforms` map, not the tag. -/
theorem create_uniform_buffer_material_tag (rm : ResourceManager) (data : List Nat) :
    ((rm.create_uniform_buffer data).1).resource_type = ResourceType.material ∧
    lookupA ((rm.create_uniform_buffer data).2).uniforms
        (rm.create_uniform_buffer data).1 = some (UniformBuffer.new data) := by
  refine ⟨rfl, ?_⟩
  simp only [ResourceManager.create_uniform_buffer]
  exact lookupA_setA_self _ _ _

/-- C2 counterexample: with one uniform buffer whose last upload was the
bytes `[0]`, calling `update_uniform_buffer` with `[1]` and then omitting any
frame sync leaves the GPU buffer holding `[1]`, not the `[0]` of its previous
upload — `update_uniform_buffer` itself performs the upload
(resource_manager.rs line 267). -/
theorem update_uniform_buffer_no_sync_changes_gpu :
    (ResourceManager.update_uniform_buffer
        ⟨1, [], [], [], [(⟨0, ResourceType.material⟩, UniformBuffer.new [0])], [], []⟩
        ⟨0, ResourceType.material⟩ [1]) =
      .ok ⟨1, [], [], [], [(⟨0, ResourceType.material⟩, ⟨[1], [1], false⟩)], [], []⟩ ∧
    (UniformBuffer.new [0]).gpu = [0] ∧
    ((⟨[1], [1], false⟩ : UniformBuffer).gpu = [1] ∧ ¬ ([1] : List Nat) = [0]) := by
  decide

/-- C2 as amended: `update_uniform_buffer(h, data)` itself uploads — it calls
`set_data` and then `UniformBuffer::update` with the queue — so immediately
after the call (sync or no sync) the GPU buffer holds exactly the byte
representation of `data` and the buffer is clean; a subsequent frame sync is
a no-op. -/
theorem update_uniform_buffer_uploads_immediately (rm : ResourceManager)
    (h : RHandle) (d : List Nat) (b : UniformBuffer)
    (hb : lookupA rm.uniforms h = some b) :
    ∃ rm1, rm.update_uniform_buffer h d = .ok rm1 ∧
      lookupA rm1.uniforms h = some (UniformBuffer.new d) ∧
      (UniformBuffer.new d).update = UniformBuffer.new d := by
  refine ⟨{ rm with uniforms := setA rm.uniforms h ((b.set_data d).update) },
    ?_, ?_, ?_⟩
  · simp [ResourceManager.update_uniform_buffer, hb]
  · show lookupA (setA rm.uniforms h ((b.set_data d).update)) h = _
    rw [lookupA_setA_self]
    rfl
  · simp [UniformBuffer.update, UniformBuffer.new]

/-- Witness for C2's amended theorem at a concrete manager. -/
theorem update_uniform_buffer_uploads_immediately_witness :
    ∃ rm1, ResourceManager.update_uniform_buffer
        ⟨1, [], [], [], [(⟨0, ResourceType.material⟩, UniformBuffer.new [2, 3])], [], []⟩
        ⟨0, ResourceType.material⟩ [4] = .ok rm1 ∧
      lookupA rm1.uniforms ⟨0, ResourceType.material⟩ = some (UniformBuffer.new [4]) ∧
      (UniformBuffer.new [4]).update = UniformBuffer.new [4] :=
  update_uniform_buffer_uploads_immediately
    ⟨1, [], [], [], [(⟨0, ResourceType.material⟩, UniformBuffer.new [2, 3])], [], []⟩
    ⟨0, ResourceType.material⟩ [4] (UniformBuffer.new [2, 3]) (by decide)

/-- C3: `assign_shader_to_material` fails fatally whenever the shader's
reflected bindings cannot be retrieved: `get_shader_bindings` panics (via
`.unwrap()`) for an unregistered shader handle and never returns `None`, so
the non-fatal logging arm of `assign_shader_to_material` is unreachable. -/
theorem assign_shader_to_material_fatal (rm : ResourceManager)
    (mh sh : RHandle) (m : Material)
    (hm : lookupA rm.materials mh = some m)
    (hs : lookupA rm.shaders sh = none) :
    rm.assign_shader_to_material mh sh = .error PanicKind.unwrapFail ∧
    (∀ (rm2 : ResourceManager) (h2 : RHandle),
      get_shader_bindings rm2 h2 ≠ .ok none) := by
  constructor
  · simp [ResourceManager.assign_shader_to_material, hm, get_shader_bindings, hs]
  · intro rm2 h2
    unfold get_shader_bindings
    cases lookupA rm2.shaders h2 <;> simp

/-- Witness for C3: a manager holding one material and no shaders. -/
theorem assign_shader_to_material_fatal_witness :
    (ResourceManager.assign_shader_to_material
        ⟨2, [], [], [(⟨0, ResourceType.material⟩, Material.new)], [], [], []⟩
        ⟨0, ResourceType.material⟩ ⟨1, ResourceType.shader⟩) =
      .error PanicKind.unwrapFail :=
  (assign_shader_to_material_fatal _ _ _ Material.new (by decide) (by decide)).1

theorem reflectPass2_error_iff (decls : List VarDecl) :
    ∀ acc, (reflectPass2 decls acc = .error PanicKind.unknownBindingType) ↔
      ∃ d ∈ decls, badTyped d = true := by
  induction decls with
  | nil => intro acc; simp [reflectPass2]
  | cons d rest ih =>
      intro acc
      cases d with
      | varRes g b n t => simp [reflectPass2, badTyped, ih]
      | varTyped g b sp n t =>
          by_cases hu : sp = "uniform"
          · simp [reflectPass2, hu, badTyped, ih]
          · by_cases hst : sp = "storage"
            · simp [reflectPass2, hu, hst, badTyped, ih]
            · simp [reflectPass2, hu, hst, badTyped]

/-- C7: `ShaderReflect::reflect` terminates with the fatal "unknown binding
type" error exactly when the source contains a typed value declaration
`@group(G) @binding(B) var<space> name: type` whose address-space keyword is
neither `uniform` nor `storage`; an opaque-resource declaration
`@group(G) @binding(B) var name: type` never triggers it and is classified
as a sampler binding when its declared type mentions "sampler", else as a
texture binding. -/
theorem reflect_unknown_binding_type_iff (decls : List VarDecl)
    (g b : Nat) (nm ty : String) :
    (reflect decls = .error PanicKind.unknownBindingType ↔
      ∃ d ∈ decls, badTyped d = true) ∧
    reflect [VarDecl.varRes g b nm ty] =
      .ok [(nm, ⟨g, b, nm,
        if mentionsSampler ty then BindingType.textureSampler
        else BindingType.texture⟩)] := by
  constructor
  · exact reflectPass2_error_iff decls _
  · by_cases h : mentionsSampler ty <;>
      simp [reflect, reflectPass1, reflectPass2, setA, h]

theorem generate_bind_groups_clears_flag (m : Material) (rm : ResourceManager)
    (m2 : Material) (h : m.generate_bind_groups rm = .ok m2) :
    m2.needs_regen = false := by
  unfold Material.generate_bind_groups at h
  by_cases hr : m.needs_regen = false
  · simp [hr] at h
    rw [← h]
    exact hr
  · simp only [hr, if_false] at h
    repeat' split at h
    all_goals simp_all
    rw [← h]

/-- C6: `generate_bind_groups` is idempotent on a clean material — a
successful call leaves the dirty flag clear, so a second call with no
intervening `add_texture`/`add_uniform` hits the early return and performs no
observable work (it returns the material unchanged). -/
theorem generate_bind_groups_idempotent (m : Material) (rm : ResourceManager)
    (m2 : Material) (h : m.generate_bind_groups rm = .ok m2) :
    m2.generate_bind_groups rm = .ok m2 := by
  have hflag := generate_bind_groups_clears_flag m rm m2 h
  unfold Material.generate_bind_groups
  simp [hflag]

/-- Witness for C6: a clean empty material against an empty manager. -/
theorem generate_bind_groups_idempotent_witness :
    ({ Material.new with needs_regen := false } : Material).generate_bind_groups
      ⟨0, [], [], [], [], [], []⟩ = .ok { Material.new with needs_regen := false } :=
  generate_bind_groups_idempotent { Material.new with needs_regen := false }
    ⟨0, [], [], [], [], [], []⟩ { Material.new with needs_regen := false } (by decide)

/-- Pairwise distinctness of the stored pipeline uuids.  This is the
invariant maintained by `create_or_get_pipeline` (it only registers a new
pipeline after the scan missed); it matters because Rust's `HashMap`
iteration order is unspecified, so with duplicate uuids the scan's result
would be order-dependent. -/
def uuidsDistinct : List (RHandle × Nat) → Bool
  | [] => true
  | (_, u) :: rest => !(rest.any (fun p => p.2 == u)) && uuidsDistinct rest

theorem findPipeline_append_none (l : List (RHandle × Nat)) (h : RHandle)
    (t : Nat) (hnone : findPipeline l t = none) :
    findPipeline (l ++ [(h, t)]) t = some h := by
  induction l with
  | nil => simp [findPipeline]
  | cons p rest ih =>
      cases p with
      | mk ph pu =>
          by_cases hp : pu = t
          · simp [findPipeline, hp] at hnone
          · simp [findPipeline, hp] at hnone ⊢
            exact ih hnone

theorem foldl_add_vertex_descriptor (layout : List VertexBufferLayout) :
    ∀ c0 : PipelineBuildSettings,
      (layout.foldl (fun c v => c.add_vertex_descriptor v) c0).vertex_descriptors =
        c0.vertex_descriptors ++ layout := by
  induction layout with
  | nil => intro c0; simp
  | cons v rest ih =>
      intro c0
      simp only [List.foldl_cons, ih]
      simp [PipelineBuildSettings.add_vertex_descriptor]

theorem foldl_add_bind_group_vd (bgs : List Nat) :
    ∀ c0 : PipelineBuildSettings,
      (bgs.foldl (fun c g => c.add_bind_group g) c0).vertex_descriptors =
        c0.vertex_descriptors := by
  induction bgs with
  | nil => intro c0; rfl
  | cons g rest ih =>
      intro c0
      simp only [List.foldl_cons, ih]
      rfl

/-- The uuid computed by the builder chain of `create_or_get_pipeline`
depends only on the mesh's vertex buffer layouts: the bind-group layouts, the
shader and the depth flag never reach the hasher. -/
theorem built_config_uuid (layout : List VertexBufferLayout) (bgs : List Nat)
    (shader : Nat) :
    ((((bgs.foldl (fun c g => c.add_bind_group g)
        (layout.foldl (fun c v => c.add_vertex_descriptor v)
          (PipelineBuildSettings.new.set_use_depth false)))).set_shader
            shader).calculate_hash).uuid = layout.foldl hashVBL 0 := by
  show ((bgs.foldl (fun c g => c.add_bind_group g)
      (layout.foldl (fun c v => c.add_vertex_descriptor v)
        (PipelineBuildSettings.new.set_use_depth false))).vertex_descriptors).foldl
          hashVBL 0 = layout.foldl hashVBL 0
  rw [foldl_add_bind_group_vd, foldl_add_vertex_descriptor]
  rfl

theorem create_or_get_pipeline_same_layout
    (pipelines : List (RHandle × Nat)) (nextId : Nat)
    (layout : List VertexBufferLayout) (bgs1 bgs2 : List Nat)
    (shader1 shader2 : Nat) :
    ∃ h1 pl1 n1,
      create_or_get_pipeline pipelines nextId layout bgs1 shader1 = (h1, pl1, n1) ∧
      (create_or_get_pipeline pl1 n1 layout bgs2 shader2).1 = h1 := by
  simp only [create_or_get_pipeline]
  rw [built_config_uuid layout bgs1 shader1, built_config_uuid layout bgs2 shader2]
  cases hfind : findPipeline pipelines (layout.foldl hashVBL 0) with
  | some h =>
      refine ⟨h, pipelines, nextId, rfl, ?_⟩
      simp [hfind]
  | none =>
      refine ⟨⟨nextId, ResourceType.pipeline⟩,
        pipelines ++ [(⟨nextId, ResourceType.pipeline⟩, layout.foldl hashVBL 0)],
        nextId + 1, rfl, ?_⟩
      rw [findPipeline_append_none pipelines ⟨nextId, ResourceType.pipeline⟩
        (layout.foldl hashVBL 0) hfind]

theorem create_pipeline_eq (rm : ResourceManager) (mh math sh : RHandle)
    (mesh : Mesh) (mat : Material) (shader : Shader)
    (hm : lookupA rm.meshes mh = some mesh)
    (hmat : lookupA rm.materials math = some mat)
    (hsh : mat.shader_handle = some sh)
    (hs : lookupA rm.shaders sh = some shader) :
    rm.create_pipeline mh math =
      .ok ((create_or_get_pipeline rm.pipelines rm.nextId mesh.layout
              shader.get_bind_group_layouts sh.id).1,
           { rm with
             pipelines := (create_or_get_pipeline rm.pipelines rm.nextId mesh.layout
               shader.get_bind_group_layouts sh.id).2.1,
             nextId := (create_or_get_pipeline rm.pipelines rm.nextId mesh.layout
               shader.get_bind_group_layouts sh.id).2.2 }) := by
  simp only [ResourceManager.create_pipeline, hm, hmat, hsh, hs]

/-- C1: two `create_pipeline` calls (delegating to
`PipelineManager::create_or_get_pipeline`) whose meshes carry structurally
identical vertex layouts return the identical pipeline handle, even with
different materials, shaders and bind-group layouts, because only the vertex
layout contributes to the pipeline content hash.  `uuidsDistinct` is the
cache invariant that makes the `HashMap` scan order-independent (the model
scans in list order). -/
theorem create_pipeline_same_layout_same_handle (rm0 : ResourceManager)
    (mh1 mh2 math1 math2 sh1 sh2 : RHandle)
    (mesh1 mesh2 : Mesh) (mat1 mat2 : Material) (s1 s2 : Shader)
    (hm1 : lookupA rm0.meshes mh1 = some mesh1)
    (hm2 : lookupA rm0.meshes mh2 = some mesh2)
    (hmat1 : lookupA rm0.materials math1 = some mat1)
    (hmat2 : lookupA rm0.materials math2 = some mat2)
    (hsh1 : mat1.shader_handle = some sh1)
    (hsh2 : mat2.shader_handle = some sh2)
    (hs1 : lookupA rm0.shaders sh1 = some s1)
    (hs2 : lookupA rm0.shaders sh2 = some s2)
    (hlay : mesh1.layout = mesh2.layout)
    (hdis : uuidsDistinct rm0.pipelines = true) :
    ∃ h1 rm1 h2 rm2,
      rm0.create_pipeline mh1 math1 = .ok (h1, rm1) ∧
      rm1.create_pipeline mh2 math2 = .ok (h2, rm2) ∧ h2 = h1 := by
  obtain ⟨h1, pl1, n1, hcall1, hcall2⟩ :=
    create_or_get_pipeline_same_layout rm0.pipelines rm0.nextId mesh1.layout
      s1.get_bind_group_layouts s2.get_bind_group_layouts sh1.id sh2.id
  have e1 := create_pipeline_eq rm0 mh1 math1 sh1 mesh1 mat1 s1 hm1 hmat1 hsh1 hs1
  rw [hcall1] at e1
  simp only [Prod.fst, Prod.snd] at e1
  have e2 := create_pipeline_eq { rm0 with pipelines := pl1, nextId := n1 }
    mh2 math2 sh2 mesh2 mat2 s2 (by exact hm2) (by exact hmat2) hsh2 (by exact hs2)
  simp only at e2
  rw [← hlay] at e2
  refine ⟨h1, { rm0 with pipelines := pl1, nextId := n1 }, _, _, e1, e2, hcall2⟩

/-- Witness for C1: two meshes with the same one-buffer vertex layout, two
materials wired to two different shaders with different bind-group layouts;
both calls return the same pipeline handle. -/
theorem create_pipeline_same_layout_same_handle_witness :
    ∃ h1 rm1 h2 rm2,
      ResourceManager.create_pipeline
        ⟨10,
         [(⟨0, ResourceType.mesh⟩, ⟨[⟨12, 0, [⟨1, 0, 0⟩]⟩]⟩),
          (⟨1, ResourceType.mesh⟩, ⟨[⟨12, 0, [⟨1, 0, 0⟩]⟩]⟩)],
         [],
         [(⟨2, ResourceType.material⟩,
           { Material.new with shader_handle := some ⟨4, ResourceType.shader⟩ }),
          (⟨3, ResourceType.material⟩,
           { Material.new with shader_handle := some ⟨5, ResourceType.shader⟩ })],
         [],
         [(⟨4, ResourceType.shader⟩, ⟨[], [0]⟩),
          (⟨5, ResourceType.shader⟩, ⟨[], [1, 2]⟩)],
         []⟩
        ⟨0, ResourceType.mesh⟩ ⟨2, ResourceType.material⟩ = .ok (h1, rm1) ∧
      rm1.create_pipeline ⟨1, ResourceType.mesh⟩ ⟨3, ResourceType.material⟩ =
        .ok (h2, rm2) ∧ h2 = h1 :=
  create_pipeline_same_layout_same_handle
    ⟨10,
     [(⟨0, ResourceType.mesh⟩, ⟨[⟨12, 0, [⟨1, 0, 0⟩]⟩]⟩),
      (⟨1, ResourceType.mesh⟩, ⟨[⟨12, 0, [⟨1, 0, 0⟩]⟩]⟩)],
     [],
     [(⟨2, ResourceType.material⟩,
       { Material.new with shader_handle := some ⟨4, ResourceType.shader⟩ }),
      (⟨3, ResourceType.material⟩,
       { Material.new with shader_handle := some ⟨5, ResourceType.shader⟩ })],
     [],
     [(⟨4, ResourceType.shader⟩, ⟨[], [0]⟩),
      (⟨5, ResourceType.shader⟩, ⟨[], [1, 2]⟩)],
     []⟩
    ⟨0, ResourceType.mesh⟩ ⟨1, ResourceType.mesh⟩
    ⟨2, ResourceType.material⟩ ⟨3, ResourceType.material⟩
    ⟨4, ResourceType.shader⟩ ⟨5, ResourceType.shader⟩
    ⟨[⟨12, 0, [⟨1, 0, 0⟩]⟩]⟩ ⟨[⟨12, 0, [⟨1, 0, 0⟩]⟩]⟩
    { Material.new with shader_handle := some ⟨4, ResourceType.shader⟩ }
    { Material.new with shader_handle := some ⟨5, ResourceType.shader⟩ }
    ⟨[], [0]⟩ ⟨[], [1, 2]⟩
    (by decide) (by decide) (by decide) (by decide) (by decide) (by decide)
    (by decide) (by decide) rfl (by decide)

theorem bytesLen_foldl (s : List Char) :
    ∀ n : Nat, s.foldl (fun acc c => acc + c.utf8Size) n = n + bytesLen s := by
  induction s with
  | nil => intro n; simp [bytesLen]
  | cons c rest ih =>
      intro n
      show rest.foldl (fun acc c => acc + c.utf8Size) (n + c.utf8Size) = _
      rw [ih (n + c.utf8Size)]
      show _ = n + rest.foldl (fun acc c => acc + c.utf8Size) (0 + c.utf8Size)
      rw [ih (0 + c.utf8Size)]
      omega

theorem bytesLen_cons (c : Char) (s : List Char) :
    bytesLen (c :: s) = c.utf8Size + bytesLen s := by
  show (c :: s).foldl (fun acc c => acc + c.utf8Size) 0 = _
  rw [List.foldl_cons, bytesLen_foldl]
  omega

theorem bytesLen_append (a b : List Char) :
    bytesLen (a ++ b) = bytesLen a + bytesLen b := by
  induction a with
  | nil => simp [bytesLen]
  | cons c rest ih => rw [List.cons_append, bytesLen_cons, bytesLen_cons, ih]; omega

theorem takeBytes_exact (base : List Char) :
    ∀ ss : List Char, takeBytes (bytesLen base) (base ++ ss) = .ok base := by
  induction base with
  | nil =>
      intro ss
      cases ss with
      | nil => rfl
      | cons c rest => simp [takeBytes, bytesLen]
  | cons c rest ih =>
      intro ss
      have hpos := Char.utf8Size_pos c
      have hne : ¬ bytesLen (c :: rest) = 0 := by rw [bytesLen_cons]; omega
      have hle : c.utf8Size ≤ bytesLen (c :: rest) := by rw [bytesLen_cons]; omega
      simp only [List.cons_append, takeBytes, hne, if_false, hle, if_true]
      have : bytesLen (c :: rest) - c.utf8Size = bytesLen rest := by
        rw [bytesLen_cons]; omega
      rw [this]
      show Except.map (fun p => c :: p) (takeBytes (bytesLen rest) (rest ++ ss)) =
        Except.ok (c :: rest)
      rw [ih ss]
      rfl

theorem takeBytes_mid (c : Char) (ss : List Char) :
    ∀ (base : List Char) (k : Nat), bytesLen base < k →
      k < bytesLen base + c.utf8Size →
      takeBytes k (base ++ c :: ss) = .error PanicKind.sliceError := by
  intro base
  induction base with
  | nil =>
      intro k h1 h2
      simp [bytesLen] at h1 h2
      have hk0 : ¬ k = 0 := by omega
      have hcs : ¬ (c.utf8Size ≤ k) := by omega
      simp [takeBytes, hk0, hcs]
  | cons b rest ih =>
      intro k h1 h2
      rw [bytesLen_cons] at h1 h2
      have hbpos := Char.utf8Size_pos b
      have hk0 : ¬ k = 0 := by omega
      have hbs : b.utf8Size ≤ k := by omega
      simp only [List.cons_append, takeBytes, hk0, if_false, hbs, if_true]
      show Except.map (fun p => b :: p) (takeBytes (k - b.utf8Size) (rest ++ c :: ss)) =
        Except.error PanicKind.sliceError
      rw [ih (k - b.utf8Size) (by omega) (by omega)]
      rfl

/-- C9: for a `TextureSampler` binding, `generate_bind_groups` resolves the
owning texture by slicing off the last 8 BYTES of the binding name —
`&name[..name.len() - 8]` — whatever those bytes are: a name shorter than
8 bytes makes the slice panic (out-of-bounds, not a missing-binding report);
for any split of the name into a prefix plus an arbitrary 8-byte suffix the
lookup key is exactly that prefix, so an unassigned prefix is reported as a
missing binding; and when the name has at least 8 bytes but the cut lands
strictly inside a multi-byte character, the slice again panics out-of-bounds
rather than reporting a missing binding. -/
theorem sampler_name_byte_slice (rm : ResourceManager) (m : Material)
    (nm : String) (g bidx : Nat)
    (hdirty : m.needs_regen = true)
    (hsb : m.shader_bindings =
      some [(nm, ⟨g, bidx, nm, BindingType.textureSampler⟩)]) :
    (bytesLen nm.toList < 8 →
      m.generate_bind_groups rm = .error PanicKind.sliceError ∧
      m.generate_bind_groups rm ≠ .error PanicKind.missingBinding) ∧
    (∀ base ss : List Char, nm.toList = base ++ ss → bytesLen ss = 8 →
      lookupA m.textures (String.mk base) = none →
      m.generate_bind_groups rm = .error PanicKind.missingBinding) ∧
    (∀ (base : List Char) (c : Char) (ss : List Char),
      nm.toList = base ++ c :: ss →
      bytesLen base < bytesLen nm.toList - 8 →
      bytesLen nm.toList - 8 < bytesLen base + c.utf8Size →
      m.generate_bind_groups rm = .error PanicKind.sliceError ∧
      m.generate_bind_groups rm ≠ .error PanicKind.missingBinding) := by
  refine ⟨?_, ?_, ?_⟩
  · intro hlen
    have hlen2 : bytesLen nm.data < 8 := hlen
    have hgen : m.generate_bind_groups rm = .error PanicKind.sliceError := by
      simp [Material.generate_bind_groups, hdirty, hsb, genPass1, genPass2,
        stripSamplerName, hlen, hlen2]
    refine ⟨hgen, ?_⟩
    rw [hgen]
    simp
  · intro base ss hsplit hss8 hb
    have hstrip : stripSamplerName nm = .ok (String.mk base) := by
      simp only [stripSamplerName]
      rw [hsplit, bytesLen_append, hss8]
      have hnotlt : ¬ (bytesLen base + 8 < 8) := by omega
      rw [if_neg hnotlt]
      have he : bytesLen base + 8 - 8 = bytesLen base := by omega
      rw [he, takeBytes_exact]
      rfl
    simp [Material.generate_bind_groups, hdirty, hsb, genPass1, genPass2,
      hstrip, hb]
  · intro base c ss hsplit h1 h2
    rw [hsplit] at h1 h2
    have hnotlt : ¬ (bytesLen (base ++ c :: ss) < 8) := by omega
    have hstrip : stripSamplerName nm = .error PanicKind.sliceError := by
      simp only [stripSamplerName]
      rw [hsplit, if_neg hnotlt,
        takeBytes_mid c ss base (bytesLen (base ++ c :: ss) - 8) h1 h2]
      rfl
    have hgen : m.generate_bind_groups rm = .error PanicKind.sliceError := by
      simp [Material.generate_bind_groups, hdirty, hsb, genPass1, genPass2,
        hstrip]
    refine ⟨hgen, ?_⟩
    rw [hgen]
    simp

/-- Witness for C9: a sampler binding named "ab" (2 bytes) slices out of
bounds, and one named "éaaaaaaa" (9 bytes, whose last-8-byte cut lands
inside the 2-byte character é) also slices out of bounds. -/
theorem sampler_name_byte_slice_witness :
    ({ Material.new with shader_bindings := some [("ab", ⟨0, 0, "ab", BindingType.textureSampler⟩)] } : Material).generate_bind_groups ⟨0, [], [], [], [], [], []⟩ =
      .error PanicKind.sliceError ∧
    ({ Material.new with shader_bindings := some [("éaaaaaaa", ⟨0, 0, "éaaaaaaa", BindingType.textureSampler⟩)] } : Material).generate_bind_groups ⟨0, [], [], [], [], [], []⟩ =
      .error PanicKind.sliceError :=
  ⟨((sampler_name_byte_slice ⟨0, [], [], [], [], [], []⟩
      { Material.new with shader_bindings := some [("ab", ⟨0, 0, "ab", BindingType.textureSampler⟩)] }
      "ab" 0 0 (by decide) (by decide)).1 (by decide)).1,
   (((sampler_name_byte_slice ⟨0, [], [], [], [], [], []⟩
      { Material.new with shader_bindings := some [("éaaaaaaa", ⟨0, 0, "éaaaaaaa", BindingType.textureSampler⟩)] }
      "éaaaaaaa" 0 0 (by decide) (by decide)).2.2 []
      'é' ['a', 'a', 'a', 'a', 'a', 'a', 'a'] (by decide) (by decide)
      (by decide)).1)⟩

theorem genPass1_missing (m : Material) (rm : ResourceManager) :
    ∀ (table : List (String × Binding)) (acc : List (String × List Nat)),
      (∃ p ∈ table, p.2.btype = BindingType.uniform ∧
        lookupA m.uniforms p.1 = none) →
      (∀ p ∈ table, p.2.btype ≠ BindingType.storage) →
      genPass1 m rm table acc = .error PanicKind.missingBinding := by
  intro table
  induction table with
  | nil =>
      intro acc hex _
      simp at hex
  | cons q rest ih =>
      intro acc hex hnost
      obtain ⟨qn, qb⟩ := q
      cases hbt : qb.btype with
      | uniform =>
          cases hl : lookupA m.uniforms qn with
          | none => simp [genPass1, hbt, hl]
          | some uh =>
              cases hrl : lookupA rm.uniforms uh with
              | none => simp [genPass1, hbt, hl, hrl]
              | some ub =>
                  simp only [genPass1, hbt, hl, hrl]
                  apply ih
                  · obtain ⟨p, hp, hpu, hpn⟩ := hex
                    rcases List.mem_cons.mp hp with hph | hpr
                    · exfalso
                      rw [hph] at hpn
                      simp at hpn
                      rw [hpn] at hl
                      exact Option.noConfusion hl
                    · exact ⟨p, hpr, hpu, hpn⟩
                  · intro p hp
                    exact hnost p (List.mem_cons_of_mem _ hp)
      | storage =>
          exfalso
          exact hnost (qn, qb) (List.mem_cons_self _ _) hbt
      | texture =>
          simp only [genPass1, hbt]
          apply ih
          · obtain ⟨p, hp, hpu, hpn⟩ := hex
            rcases List.mem_cons.mp hp with hph | hpr
            · exfalso
              rw [hph] at hpu
              simp [hbt] at hpu
            · exact ⟨p, hpr, hpu, hpn⟩
          · intro p hp
            exact hnost p (List.mem_cons_of_mem _ hp)
      | textureSampler =>
          simp only [genPass1, hbt]
          apply ih
          · obtain ⟨p, hp, hpu, hpn⟩ := hex
            rcases List.mem_cons.mp hp with hph | hpr
            · exfalso
              rw [hph] at hpu
              simp [hbt] at hpu
            · exact ⟨p, hpr, hpu, hpn⟩
          · intro p hp
            exact hnost p (List.mem_cons_of_mem _ hp)

/-- C4: on a dirty material, a `Uniform` binding in the shader's table whose
name has no same-named entry in the material's uniform map makes
`generate_bind_groups` fail fatally with the missing-binding error (any
binding table free of `Storage` bindings, whose `todo!` would also abort);
likewise a sole `Texture` binding with no same-named assigned texture; and
once the texture name is assigned (and resolvable), the call succeeds and
yields exactly one bind group, keyed by that binding's group index. -/
theorem generate_bind_groups_missing_binding (m : Material)
    (rm : ResourceManager) (table : List (String × Binding)) (nm : String)
    (g bidx : Nat) (sh th : RHandle) (tex : TextureRes) (shader : Shader)
    (hdirty : m.needs_regen = true) :
    ((m.shader_bindings = some table) →
     (∃ p ∈ table, p.2.btype = BindingType.uniform ∧
       lookupA m.uniforms p.1 = none) →
     (∀ p ∈ table, p.2.btype ≠ BindingType.storage) →
     m.generate_bind_groups rm = .error PanicKind.missingBinding) ∧
    ((m.shader_bindings = some [(nm, ⟨g, bidx, nm, BindingType.texture⟩)]) →
     lookupA m.textures nm = none →
     m.generate_bind_groups rm = .error PanicKind.missingBinding) ∧
    ((m.shader_bindings = some [(nm, ⟨g, bidx, nm, BindingType.texture⟩)]) →
     lookupA m.textures nm = some th →
     lookupA rm.textures th = some tex →
     m.shader_handle = some sh →
     lookupA rm.shaders sh = some shader →
     shader.get_bind_group_layout g = true →
     m.bind_groups = [] →
     ∃ m2, m.generate_bind_groups rm = .ok m2 ∧
       m2.bind_groups = [(g, [⟨bidx, BindRes.texView th⟩])] ∧
       m2.needs_regen = false) := by
  refine ⟨?_, ?_, ?_⟩
  · intro hsb hex hnost
    have hp1 := genPass1_missing m rm table m.bind_group_buffers hex hnost
    simp [Material.generate_bind_groups, hdirty, hsb, hp1]
  · intro hsb hmiss
    simp [Material.generate_bind_groups, hdirty, hsb, genPass1, genPass2, hmiss]
  · intro hsb htex htexrm hshh hsrm hlayg hbg
    refine ⟨Material.mk m.textures m.uniforms
      (List.foldl
        (fun acc ge =>
          if shader.get_bind_group_layout ge.1 = true then setA acc ge.1 ge.2
          else acc)
        m.bind_groups (pushEntry [] g ⟨bidx, BindRes.texView th⟩))
      m.bind_group_buffers false m.shader_handle m.shader_bindings,
      ?_, ?_, rfl⟩
    · simp [Material.generate_bind_groups, hdirty, hsb, genPass1, genPass2,
        htex, htexrm, hshh, hsrm]
    · simp [pushEntry, lookupA, hlayg, hbg, setA]

/-- Witness for C4: a missing uniform "mvp", a missing texture "diffuse", and
the successful run once "diffuse" is assigned. -/
theorem generate_bind_groups_missing_binding_witness :
    (Material.mk [] [] [] [] true (some ⟨4, ResourceType.shader⟩)
        (some [("mvp", ⟨0, 0, "mvp", BindingType.uniform⟩)])).generate_bind_groups
      ⟨6, [], [(⟨5, ResourceType.texture⟩, ⟨7⟩)], [], [],
       [(⟨4, ResourceType.shader⟩, ⟨[], [0]⟩)], []⟩ =
      .error PanicKind.missingBinding ∧
    (Material.mk [] [] [] [] true (some ⟨4, ResourceType.shader⟩)
        (some [("diffuse", ⟨0, 1, "diffuse", BindingType.texture⟩)])).generate_bind_groups
      ⟨6, [], [(⟨5, ResourceType.texture⟩, ⟨7⟩)], [], [],
       [(⟨4, ResourceType.shader⟩, ⟨[], [0]⟩)], []⟩ =
      .error PanicKind.missingBinding ∧
    ∃ m2, (Material.mk [("diffuse", ⟨5, ResourceType.texture⟩)] [] [] [] true
        (some ⟨4, ResourceType.shader⟩)
        (some [("diffuse", ⟨0, 1, "diffuse", BindingType.texture⟩)])).generate_bind_groups
      ⟨6, [], [(⟨5, ResourceType.texture⟩, ⟨7⟩)], [], [],
       [(⟨4, ResourceType.shader⟩, ⟨[], [0]⟩)], []⟩ = .ok m2 ∧
      m2.bind_groups = [(0, [⟨1, BindRes.texView ⟨5, ResourceType.texture⟩⟩])] ∧
      m2.needs_regen = false :=
  ⟨(generate_bind_groups_missing_binding
      (Material.mk [] [] [] [] true (some ⟨4, ResourceType.shader⟩)
        (some [("mvp", ⟨0, 0, "mvp", BindingType.uniform⟩)]))
      ⟨6, [], [(⟨5, ResourceType.texture⟩, ⟨7⟩)], [], [],
       [(⟨4, ResourceType.shader⟩, ⟨[], [0]⟩)], []⟩
      [("mvp", ⟨0, 0, "mvp", BindingType.uniform⟩)] "mvp" 0 0
      ⟨4, ResourceType.shader⟩ ⟨5, ResourceType.texture⟩ ⟨7⟩ ⟨[], [0]⟩
      (by decide)).1 rfl (by decide) (by decide),
   (generate_bind_groups_missing_binding
      (Material.mk [] [] [] [] true (some ⟨4, ResourceType.shader⟩)
        (some [("diffuse", ⟨0, 1, "diffuse", BindingType.texture⟩)]))
      ⟨6, [], [(⟨5, ResourceType.texture⟩, ⟨7⟩)], [], [],
       [(⟨4, ResourceType.shader⟩, ⟨[], [0]⟩)], []⟩
      [] "diffuse" 0 1
      ⟨4, ResourceType.shader⟩ ⟨5, ResourceType.texture⟩ ⟨7⟩ ⟨[], [0]⟩
      (by decide)).2.1 rfl (by decide),
   (generate_bind_groups_missing_binding
      (Material.mk [("diffuse", ⟨5, ResourceType.texture⟩)] [] [] [] true
        (some ⟨4, ResourceType.shader⟩)
        (some [("diffuse", ⟨0, 1, "diffuse", BindingType.texture⟩)]))
      ⟨6, [], [(⟨5, ResourceType.texture⟩, ⟨7⟩)], [], [],
       [(⟨4, ResourceType.shader⟩, ⟨[], [0]⟩)], []⟩
      [] "diffuse" 0 1
      ⟨4, ResourceType.shader⟩ ⟨5, ResourceType.texture⟩ ⟨7⟩ ⟨[], [0]⟩
      (by decide)).2.2 rfl (by decide) (by decide) rfl (by decide) (by decide) rfl⟩
